import Mathlib

/-!
# Shallow embedding of `eth_portal/bridge.py`

This file embeds the encode-validate-distribute pipeline of the bridge
module: `PortalInserter.push_history`, `handle_new_header`,
`propagate_header`, `block_fields_to_content`, `propagate_receipts` and
`encode_receipts_content`.

External collaborators (the `keccak` hash, `rlp` encoding, the py-evm
header decoding `block_fields_to_header` and its own `.hash` property,
`make_trie_root_and_nodes`, the Portal content key/value encoders, and the
web3 chain-data provider) are modelled as an environment of opaque total
functions `Env`; theorems quantify over the environment, so they hold for
any behaviour of those collaborators.

Observable effects (the `w3.eth.get_block` fetch, the
`wait_for_transaction_receipt` polls, the `print` at the start of each
`push_history` call, and each `portal_historyStore` request to a node) are
recorded in an event trace, and Python exceptions (`ValidationError`, and
a transport failure raised by `w3.provider.make_request`) are modelled
with `Except`.
-/

/-- Byte strings, as lists of byte values. -/
abbrev Bytes := List Nat

/-- A handle to one launched portal node (a web3 link), identified opaquely. -/
abbrev Node := Nat

/-- An opaque py-evm header object, the result of `block_fields_to_header`. -/
abbrev Header := Nat

/-- An opaque web3 receipt, the result of `wait_for_transaction_receipt`. -/
abbrev Web3Receipt := Nat

/-- An opaque py-evm receipt, the result of `receipt_fields_to_receipt`. -/
abbrev Receipt := Nat

/-- The block fields returned by `w3.eth.get_block`, restricted to the
fields the bridge reads: `hash`, `number`, `receiptsRoot`, `transactions`
(a list of transaction hashes). -/
structure BlockFields where
  hash : Bytes
  number : Nat
  receiptsRoot : Bytes
  transactions : List Bytes
deriving DecidableEq

/-- The environment of external collaborators used by `bridge.py`. Each
field is one imported function (or attribute access) the bridge calls. -/
structure Env where
  /-- `eth_hash.auto.keccak` -/
  keccak : Bytes → Bytes
  /-- `eth_portal.web3_decoding.block_fields_to_header` -/
  blockFieldsToHeader : BlockFields → Header
  /-- `rlp.encode` on a py-evm header -/
  rlpEncode : Header → Bytes
  /-- the py-evm header object's own `.hash` property -/
  pyEvmHash : Header → Bytes
  /-- `eth_portal.web3_encoding.header_content_key` -/
  headerContentKey : Bytes → Nat → Bytes
  /-- `eth_portal.web3_decoding.receipt_fields_to_receipt` -/
  receiptFieldsToReceipt : Web3Receipt → Nat → Receipt
  /-- the root component of `eth.db.trie.make_trie_root_and_nodes` -/
  makeTrieRootAndNodes : List Receipt → Bytes
  /-- `eth_portal.web3_encoding.receipt_content_key` -/
  receiptContentKey : Bytes → Nat → Bytes
  /-- `eth_portal.web3_encoding.receipt_content_value` -/
  receiptContentValue : List Receipt → Bytes
  /-- `w3.eth.get_block` by header hash -/
  getBlock : Bytes → BlockFields
  /-- `w3.eth.wait_for_transaction_receipt` with a poll latency -/
  waitForTransactionReceipt : Bytes → Nat → Web3Receipt
  /-- whether `w3.provider.make_request` raises a transport error on the
  given node -/
  requestFails : Node → Bool

/-- Exceptions raised inside the bridge. -/
inductive Err where
  /-- `eth_utils.ValidationError` with a message -/
  | validationError (msg : String)
  /-- a transport-level failure of `make_request` against one node -/
  | transportError (node : Node)
deriving DecidableEq

/-- Observable effects of the bridge, in program order. -/
inductive Event where
  /-- `w3.eth.get_block(header_hash, full_transactions=False)` -/
  | getBlock (headerHash : Bytes)
  /-- the `print` at the start of `push_history`, carrying the hex pair;
  one such event per `push_history` call -/
  | printPush (keyHex valueHex : String)
  /-- `w3.provider.make_request(method, params)` against one node -/
  | storeRequest (node : Node) (method : String) (params : List String)
  /-- `w3.eth.wait_for_transaction_receipt(txn_hash, poll_latency)` -/
  | waitReceipt (txnHash : Bytes) (pollLatency : Nat)
deriving DecidableEq

/-- Is the event a `portal_historyStore` transport request? -/
def Event.isStore : Event → Bool
  | .storeRequest _ _ _ => true
  | _ => false

/-- Is the event a receipt-wait poll? -/
def Event.isWait : Event → Bool
  | .waitReceipt _ _ => true
  | _ => false

/-- Is the event part of a `push_history` call (its print or a store
request)? -/
def Event.isPush : Event → Bool
  | .printPush _ _ => true
  | .storeRequest _ _ _ => true
  | _ => false

/-- Hex digit characters. -/
def hexDigit (n : Nat) : Char :=
  "0123456789abcdef".toList.getD n (Char.ofNat 48)

/-- Two lowercase hex characters for one byte, as `eth_utils.encode_hex`
renders each byte. -/
def byteToHex (b : Nat) : String :=
  String.mk [hexDigit ((b / 16) % 16), hexDigit (b % 16)]

/-- `eth_utils.encode_hex`: a `0x`-prefixed lowercase hex rendering of a
byte string. -/
def encode_hex (bs : Bytes) : String :=
  "0x" ++ String.join (bs.map byteToHex)

/-- `PortalInserter`: tracks a group of Portal nodes. The only state is
`_web3_links`, set by `__init__`. -/
structure PortalInserter where
  _web3_links : List Node
deriving DecidableEq

/-- The `for w3 in self._web3_links` loop of `push_history`: issue
`portal_historyStore` requests one node at a time; a raising
`make_request` propagates out of the loop, so later nodes are not
reached. Returns the store requests actually issued and the outcome. -/
def pushHistoryLoop (env : Env) (links : List Node) (kh vh : String) :
    List Event × Except Err Unit :=
  match links with
  | [] => ([], Except.ok ())
  | w3 :: rest =>
    let ev := Event.storeRequest w3 "portal_historyStore" [kh, vh]
    if env.requestFails w3 then
      ([ev], Except.error (Err.transportError w3))
    else
      let r := pushHistoryLoop env rest kh vh
      (ev :: r.1, r.2)

/-- `PortalInserter.push_history`: hex-encode the content key and value,
print them, then push to all inserting clients. Returns the event trace,
the outcome, and the inserter's state after the call. -/
def push_history (env : Env) (self : PortalInserter)
    (content_key content_value : Bytes) :
    List Event × Except Err Unit × PortalInserter :=
  let content_key_hex := encode_hex content_key
  let content_value_hex := encode_hex content_value
  let r := pushHistoryLoop env self._web3_links content_key_hex content_value_hex
  (Event.printPush content_key_hex content_value_hex :: r.1, r.2, self)

/-- The message of the first `ValidationError` in `block_fields_to_content`
(the dynamic field reprs of the f-string are elided). -/
def headerEncodeErrMsg : String :=
  "Could not correctly encode header fields"

/-- The message of the second `ValidationError` in
`block_fields_to_content` (the dynamic field reprs are elided). -/
def pyEvmHashErrMsg : String :=
  "py-evm generated a different hash than we did manually with header fields"

/-- The message of the `ValidationError` in `encode_receipts_content` (the
dynamic header hash of the f-string is elided). -/
def receiptsEncodeErrMsg : String :=
  "Could not correctly encode receipts for header"

/-- `block_fields_to_content`: convert a web3 block into a Portal History
content key and value, raising `ValidationError` if the rlp-encoded header
does not hash to `block_fields.hash`, or if the py-evm header's own hash
differs from `block_fields.hash`. -/
def block_fields_to_content (env : Env) (block_fields : BlockFields)
    (chain_id : Nat) : Except Err (Bytes × Bytes) :=
  let header := env.blockFieldsToHeader block_fields
  let header_rlp := env.rlpEncode header
  if env.keccak header_rlp ≠ block_fields.hash then
    Except.error (Err.validationError headerEncodeErrMsg)
  else if env.pyEvmHash header ≠ block_fields.hash then
    Except.error (Err.validationError pyEvmHashErrMsg)
  else
    Except.ok (env.headerContentKey block_fields.hash chain_id, header_rlp)

/-- `propagate_header`: fetch the block fields, encode them to content,
push to the trin nodes, and return the block fields. An exception from
the encoding or from the push propagates. -/
def propagate_header (env : Env) (portal_inserter : PortalInserter)
    (chain_id : Nat) (header_hash : Bytes) :
    List Event × Except Err BlockFields × PortalInserter :=
  let block_fields := env.getBlock header_hash
  match block_fields_to_content env block_fields chain_id with
  | Except.error e => ([Event.getBlock header_hash], Except.error e, portal_inserter)
  | Except.ok kv =>
    let r := push_history env portal_inserter kv.1 kv.2
    (Event.getBlock header_hash :: r.1,
     Except.map (fun _ => block_fields) r.2.1,
     r.2.2)

/-- `encode_receipts_content`: convert web3 receipts to py-evm receipts,
validate their trie root against the header's receipt root, and produce
the receipts content key and value. -/
def encode_receipts_content (env : Env) (web3_receipts : List Web3Receipt)
    (chain_id : Nat) (header_hash : Bytes) (block_number : Nat)
    (receipt_root : Bytes) : Except Err (Bytes × Bytes) :=
  let receipts := web3_receipts.map
    (fun receipt => env.receiptFieldsToReceipt receipt block_number)
  let calculated_root := env.makeTrieRootAndNodes receipts
  if calculated_root ≠ receipt_root then
    Except.error (Err.validationError receiptsEncodeErrMsg)
  else
    Except.ok (env.receiptContentKey header_hash chain_id,
               env.receiptContentValue receipts)

/-- `propagate_receipts`: wait for every transaction's receipt (poll
latency 2), encode the receipts content, and push it to the trin nodes. -/
def propagate_receipts (env : Env) (portal_inserter : PortalInserter)
    (chain_id : Nat) (block_fields : BlockFields) :
    List Event × Except Err Unit × PortalInserter :=
  let waits := block_fields.transactions.map
    (fun txn_hash => Event.waitReceipt txn_hash 2)
  let web3_receipts := block_fields.transactions.map
    (fun txn_hash => env.waitForTransactionReceipt txn_hash 2)
  match encode_receipts_content env web3_receipts chain_id
      block_fields.hash block_fields.number block_fields.receiptsRoot with
  | Except.error e => (waits, Except.error e, portal_inserter)
  | Except.ok kv =>
    let r := push_history env portal_inserter kv.1 kv.2
    (waits ++ r.1, r.2.1, r.2.2)

/-- `handle_new_header`: propagate the header, then the receipts. An
exception from the header stage propagates before the receipts stage
starts. -/
def handle_new_header (env : Env) (portal_inserter : PortalInserter)
    (header_hash : Bytes) (chain_id : Nat) :
    List Event × Except Err Unit × PortalInserter :=
  let r := propagate_header env portal_inserter chain_id header_hash
  match r.2.1 with
  | Except.error e => (r.1, Except.error e, r.2.2)
  | Except.ok block_fields =>
    let s := propagate_receipts env r.2.2 chain_id block_fields
    (r.1 ++ s.1, s.2.1, s.2.2)

/-! ## Derived abbreviations over the pipeline's data -/

/-- The py-evm header `propagate_header` derives from the block fields. -/
def headerOf (env : Env) (bf : BlockFields) : Header :=
  env.blockFieldsToHeader bf

/-- The rlp encoding of that header (the header content value). -/
def headerRlpOf (env : Env) (bf : BlockFields) : Bytes :=
  env.rlpEncode (headerOf env bf)

/-- The header content key for the block. -/
def headerKeyOf (env : Env) (bf : BlockFields) (chain_id : Nat) : Bytes :=
  env.headerContentKey bf.hash chain_id

/-- The receipt-wait events of `propagate_receipts`, one per transaction,
in the transaction list's order, with poll latency 2. -/
def waitEventsOf (bf : BlockFields) : List Event :=
  bf.transactions.map (fun txn_hash => Event.waitReceipt txn_hash 2)

/-- The web3 receipts `propagate_receipts` collects. -/
def web3ReceiptsOf (env : Env) (bf : BlockFields) : List Web3Receipt :=
  bf.transactions.map (fun txn_hash => env.waitForTransactionReceipt txn_hash 2)

/-- The py-evm receipts `encode_receipts_content` derives from them. -/
def receiptsOf (env : Env) (bf : BlockFields) : List Receipt :=
  (web3ReceiptsOf env bf).map
    (fun receipt => env.receiptFieldsToReceipt receipt bf.number)

/-- The receipts content key for the block. -/
def receiptKeyOf (env : Env) (bf : BlockFields) (chain_id : Nat) : Bytes :=
  env.receiptContentKey bf.hash chain_id

/-- The receipts content value for the block. -/
def receiptValueOf (env : Env) (bf : BlockFields) : Bytes :=
  env.receiptContentValue (receiptsOf env bf)

/-- Both validation checks of `block_fields_to_content` pass: the keccak
of the rlp-encoded header, and the py-evm header's own hash, equal the
provider-asserted block hash. -/
def headerChecksPass (env : Env) (bf : BlockFields) : Prop :=
  env.keccak (headerRlpOf env bf) = bf.hash ∧
    env.pyEvmHash (headerOf env bf) = bf.hash

instance (env : Env) (bf : BlockFields) : Decidable (headerChecksPass env bf) := by
  unfold headerChecksPass; infer_instance

/-- The trie-root validation check of `encode_receipts_content` passes for
the block's receipts. -/
def receiptRootOk (env : Env) (bf : BlockFields) : Prop :=
  env.makeTrieRootAndNodes (receiptsOf env bf) = bf.receiptsRoot

instance (env : Env) (bf : BlockFields) : Decidable (receiptRootOk env bf) := by
  unfold receiptRootOk; infer_instance

/-- No `make_request` against any of the given nodes raises. -/
def allRequestsOk (env : Env) (links : List Node) : Prop :=
  ∀ n ∈ links, env.requestFails n = false

instance (env : Env) (links : List Node) : Decidable (allRequestsOk env links) := by
  unfold allRequestsOk; infer_instance

/-- The nodes the `push_history` loop actually reaches: all of them up to
and including the first failing one. -/
def attempted (env : Env) (links : List Node) : List Node :=
  match links with
  | [] => []
  | n :: rest => if env.requestFails n then [n] else n :: attempted env rest

/-- One `portal_historyStore` request event. -/
def storeEvent (n : Node) (kh vh : String) : Event :=
  Event.storeRequest n "portal_historyStore" [kh, vh]

/-- The full trace of a failure-free `push_history` call: the print, then
one store request per link, in order. -/
def pushEvents (k v : Bytes) (links : List Node) : List Event :=
  Event.printPush (encode_hex k) (encode_hex v)
    :: links.map (fun n => storeEvent n (encode_hex k) (encode_hex v))

/-! ## Lemmas about the push loop -/

lemma pushHistoryLoop_trace (env : Env) (links : List Node) (kh vh : String) :
    (pushHistoryLoop env links kh vh).1
      = (attempted env links).map (fun n => storeEvent n kh vh) := by
  induction links with
  | nil => simp [pushHistoryLoop, attempted]
  | cons n rest ih =>
    by_cases hf : env.requestFails n
    · simp [pushHistoryLoop, attempted, hf, storeEvent]
    · simp [pushHistoryLoop, attempted, hf, storeEvent, ih]

lemma pushHistoryLoop_ok_iff (env : Env) (links : List Node) (kh vh : String) :
    (pushHistoryLoop env links kh vh).2 = Except.ok () ↔ allRequestsOk env links := by
  induction links with
  | nil => simp [pushHistoryLoop, allRequestsOk]
  | cons n rest ih =>
    by_cases hf : env.requestFails n
    · simp [pushHistoryLoop, allRequestsOk, hf]
    · simp [pushHistoryLoop, allRequestsOk, hf] at ih ⊢
      exact ih

lemma pushHistoryLoop_all_ok (env : Env) (links : List Node) (kh vh : String)
    (h : allRequestsOk env links) :
    pushHistoryLoop env links kh vh
      = (links.map (fun n => storeEvent n kh vh), Except.ok ()) := by
  induction links with
  | nil => simp [pushHistoryLoop]
  | cons n rest ih =>
    have hn : env.requestFails n = false := h n (List.mem_cons_self n rest)
    have hrest : allRequestsOk env rest := fun m hm => h m (List.mem_cons_of_mem n hm)
    simp [pushHistoryLoop, hn, ih hrest, storeEvent]

lemma push_history_inserter (env : Env) (self : PortalInserter) (k v : Bytes) :
    (push_history env self k v).2.2 = self := rfl

lemma push_history_trace (env : Env) (self : PortalInserter) (k v : Bytes) :
    (push_history env self k v).1
      = Event.printPush (encode_hex k) (encode_hex v)
          :: (attempted env self._web3_links).map
              (fun n => storeEvent n (encode_hex k) (encode_hex v)) := by
  simp [push_history, pushHistoryLoop_trace]

lemma push_history_all_ok (env : Env) (self : PortalInserter) (k v : Bytes)
    (h : allRequestsOk env self._web3_links) :
    push_history env self k v = (pushEvents k v self._web3_links, Except.ok (), self) := by
  simp [push_history, pushEvents, pushHistoryLoop_all_ok env self._web3_links _ _ h]

lemma push_history_ok_iff (env : Env) (self : PortalInserter) (k v : Bytes) :
    (push_history env self k v).2.1 = Except.ok () ↔ allRequestsOk env self._web3_links := by
  simp [push_history, pushHistoryLoop_ok_iff]

lemma push_history_err (env : Env) (self : PortalInserter) (k v : Bytes)
    (h : ¬ allRequestsOk env self._web3_links) :
    ∃ n, (push_history env self k v).2.1 = Except.error (Err.transportError n) := by
  have h2 : (push_history env self k v).2.1 ≠ Except.ok () := by
    intro hc
    exact h ((push_history_ok_iff env self k v).mp hc)
  match hr : (push_history env self k v).2.1 with
  | Except.ok () => exact absurd hr h2
  | Except.error e =>
    match e with
    | Err.transportError n => exact ⟨n, rfl⟩
    | Err.validationError m =>
      exfalso
      revert hr
      simp [push_history]
      induction self._web3_links with
      | nil => simp [pushHistoryLoop]
      | cons n rest ih =>
        by_cases hf : env.requestFails n
        · simp [pushHistoryLoop, hf]
        · simp [pushHistoryLoop, hf]
          exact ih

/-- Is the event the per-call print of `push_history`? -/
def Event.isPrint : Event → Bool
  | .printPush _ _ => true
  | _ => false

/-! ## Characterization lemmas for the pipeline functions -/

lemma block_fields_to_content_pass (env : Env) (bf : BlockFields) (cid : Nat)
    (h : headerChecksPass env bf) :
    block_fields_to_content env bf cid
      = Except.ok (headerKeyOf env bf cid, headerRlpOf env bf) := by
  have hk : env.keccak (env.rlpEncode (env.blockFieldsToHeader bf)) = bf.hash := h.1
  have hp : env.pyEvmHash (env.blockFieldsToHeader bf) = bf.hash := h.2
  simp [block_fields_to_content, headerKeyOf, headerRlpOf, headerOf, hk, hp]

lemma block_fields_to_content_fail_keccak (env : Env) (bf : BlockFields) (cid : Nat)
    (h : env.keccak (headerRlpOf env bf) ≠ bf.hash) :
    block_fields_to_content env bf cid
      = Except.error (Err.validationError headerEncodeErrMsg) := by
  have hk : env.keccak (env.rlpEncode (env.blockFieldsToHeader bf)) ≠ bf.hash := h
  simp [block_fields_to_content, hk]

lemma block_fields_to_content_fail (env : Env) (bf : BlockFields) (cid : Nat)
    (h : ¬ headerChecksPass env bf) :
    ∃ s, block_fields_to_content env bf cid
      = Except.error (Err.validationError s) := by
  by_cases hk : env.keccak (env.rlpEncode (env.blockFieldsToHeader bf)) = bf.hash
  · have hp : env.pyEvmHash (env.blockFieldsToHeader bf) ≠ bf.hash := by
      intro hc
      exact h ⟨hk, hc⟩
    exact ⟨pyEvmHashErrMsg, by simp [block_fields_to_content, hk, hp]⟩
  · exact ⟨headerEncodeErrMsg, by simp [block_fields_to_content, hk]⟩

lemma encode_receipts_content_pass (env : Env) (bf : BlockFields) (cid : Nat)
    (h : receiptRootOk env bf) :
    encode_receipts_content env (web3ReceiptsOf env bf) cid bf.hash bf.number bf.receiptsRoot
      = Except.ok (receiptKeyOf env bf cid, receiptValueOf env bf) := by
  have h2 : env.makeTrieRootAndNodes
      ((bf.transactions.map (fun txn_hash => env.waitForTransactionReceipt txn_hash 2)).map
        (fun receipt => env.receiptFieldsToReceipt receipt bf.number))
      = bf.receiptsRoot := h
  simp only [encode_receipts_content, web3ReceiptsOf, receiptKeyOf, receiptValueOf,
    receiptsOf, ne_eq]
  rw [if_neg (not_not_intro h2)]

lemma encode_receipts_content_fail (env : Env) (bf : BlockFields) (cid : Nat)
    (h : ¬ receiptRootOk env bf) :
    encode_receipts_content env (web3ReceiptsOf env bf) cid bf.hash bf.number bf.receiptsRoot
      = Except.error (Err.validationError receiptsEncodeErrMsg) := by
  have h2 : ¬ (env.makeTrieRootAndNodes
      ((bf.transactions.map (fun txn_hash => env.waitForTransactionReceipt txn_hash 2)).map
        (fun receipt => env.receiptFieldsToReceipt receipt bf.number))
      = bf.receiptsRoot) := h
  simp only [encode_receipts_content, web3ReceiptsOf, ne_eq]
  rw [if_pos h2]

lemma propagate_header_pass (env : Env) (ins : PortalInserter) (cid : Nat) (hh : Bytes)
    (h : headerChecksPass env (env.getBlock hh))
    (hok : allRequestsOk env ins._web3_links) :
    propagate_header env ins cid hh
      = (Event.getBlock hh
          :: pushEvents (headerKeyOf env (env.getBlock hh) cid)
              (headerRlpOf env (env.getBlock hh)) ins._web3_links,
         Except.ok (env.getBlock hh), ins) := by
  have hbc := block_fields_to_content_pass env (env.getBlock hh) cid h
  have hpush := push_history_all_ok env ins (headerKeyOf env (env.getBlock hh) cid)
    (headerRlpOf env (env.getBlock hh)) hok
  simp [propagate_header, hbc, hpush, Except.map]

lemma propagate_header_fail (env : Env) (ins : PortalInserter) (cid : Nat) (hh : Bytes)
    (h : ¬ headerChecksPass env (env.getBlock hh)) :
    ∃ s, propagate_header env ins cid hh
      = ([Event.getBlock hh], Except.error (Err.validationError s), ins) := by
  obtain ⟨s, hs⟩ := block_fields_to_content_fail env (env.getBlock hh) cid h
  exact ⟨s, by simp [propagate_header, hs]⟩

lemma propagate_header_transport (env : Env) (ins : PortalInserter) (cid : Nat) (hh : Bytes)
    (h : headerChecksPass env (env.getBlock hh))
    (hbad : ¬ allRequestsOk env ins._web3_links) :
    ∃ n, propagate_header env ins cid hh
      = (Event.getBlock hh
          :: (push_history env ins (headerKeyOf env (env.getBlock hh) cid)
              (headerRlpOf env (env.getBlock hh))).1,
         Except.error (Err.transportError n), ins) := by
  obtain ⟨n, hn⟩ := push_history_err env ins (headerKeyOf env (env.getBlock hh) cid)
    (headerRlpOf env (env.getBlock hh)) hbad
  have hbc := block_fields_to_content_pass env (env.getBlock hh) cid h
  exact ⟨n, by simp [propagate_header, hbc, hn, push_history_inserter, Except.map]⟩

lemma propagate_receipts_pass (env : Env) (ins : PortalInserter) (cid : Nat)
    (bf : BlockFields) (h : receiptRootOk env bf) :
    propagate_receipts env ins cid bf
      = (waitEventsOf bf
          ++ (push_history env ins (receiptKeyOf env bf cid) (receiptValueOf env bf)).1,
         (push_history env ins (receiptKeyOf env bf cid) (receiptValueOf env bf)).2.1,
         ins) := by
  have henc := encode_receipts_content_pass env bf cid h
  simp only [web3ReceiptsOf] at henc
  simp only [propagate_receipts, waitEventsOf]
  simp [henc, push_history_inserter]

lemma propagate_receipts_fail (env : Env) (ins : PortalInserter) (cid : Nat)
    (bf : BlockFields) (h : ¬ receiptRootOk env bf) :
    propagate_receipts env ins cid bf
      = (waitEventsOf bf, Except.error (Err.validationError receiptsEncodeErrMsg), ins) := by
  have henc := encode_receipts_content_fail env bf cid h
  simp only [web3ReceiptsOf] at henc
  simp only [propagate_receipts, waitEventsOf]
  simp [henc]

lemma handle_new_header_fail (env : Env) (ins : PortalInserter) (hh : Bytes) (cid : Nat)
    (h : ¬ headerChecksPass env (env.getBlock hh)) :
    ∃ s, handle_new_header env ins hh cid
      = ([Event.getBlock hh], Except.error (Err.validationError s), ins) := by
  obtain ⟨s, hs⟩ := propagate_header_fail env ins cid hh h
  exact ⟨s, by simp [handle_new_header, hs]⟩

lemma handle_new_header_transport (env : Env) (ins : PortalInserter) (hh : Bytes) (cid : Nat)
    (h : headerChecksPass env (env.getBlock hh))
    (hbad : ¬ allRequestsOk env ins._web3_links) :
    ∃ n, handle_new_header env ins hh cid
      = (Event.getBlock hh
          :: (push_history env ins (headerKeyOf env (env.getBlock hh) cid)
              (headerRlpOf env (env.getBlock hh))).1,
         Except.error (Err.transportError n), ins) := by
  obtain ⟨n, hn⟩ := propagate_header_transport env ins cid hh h hbad
  exact ⟨n, by simp [handle_new_header, hn]⟩

lemma handle_new_header_all_pass (env : Env) (ins : PortalInserter) (hh : Bytes) (cid : Nat)
    (h1 : headerChecksPass env (env.getBlock hh))
    (h3 : allRequestsOk env ins._web3_links)
    (h4 : receiptRootOk env (env.getBlock hh)) :
    handle_new_header env ins hh cid
      = (Event.getBlock hh
          :: (pushEvents (headerKeyOf env (env.getBlock hh) cid)
                (headerRlpOf env (env.getBlock hh)) ins._web3_links
            ++ (waitEventsOf (env.getBlock hh)
              ++ pushEvents (receiptKeyOf env (env.getBlock hh) cid)
                  (receiptValueOf env (env.getBlock hh)) ins._web3_links)),
         Except.ok (), ins) := by
  have hph := propagate_header_pass env ins cid hh h1 h3
  have hpr := propagate_receipts_pass env ins cid (env.getBlock hh) h4
  have hpushR := push_history_all_ok env ins (receiptKeyOf env (env.getBlock hh) cid)
    (receiptValueOf env (env.getBlock hh)) h3
  simp [handle_new_header, hph, hpr, hpushR]

lemma handle_new_header_root_fail (env : Env) (ins : PortalInserter) (hh : Bytes) (cid : Nat)
    (h1 : headerChecksPass env (env.getBlock hh))
    (h3 : allRequestsOk env ins._web3_links)
    (h4 : ¬ receiptRootOk env (env.getBlock hh)) :
    handle_new_header env ins hh cid
      = (Event.getBlock hh
          :: (pushEvents (headerKeyOf env (env.getBlock hh) cid)
                (headerRlpOf env (env.getBlock hh)) ins._web3_links
            ++ waitEventsOf (env.getBlock hh)),
         Except.error (Err.validationError receiptsEncodeErrMsg), ins) := by
  have hph := propagate_header_pass env ins cid hh h1 h3
  have hpr := propagate_receipts_fail env ins cid (env.getBlock hh) h4
  simp [handle_new_header, hph, hpr]

lemma filter_isPrint_store_map (a b : String) (links : List Node) :
    (links.map (fun n => storeEvent n a b)).filter Event.isPrint = [] := by
  induction links with
  | nil => simp
  | cons n rest ih => simp [storeEvent, Event.isPrint, ih]

lemma filter_isPrint_pushEvents (k v : Bytes) (links : List Node) :
    (pushEvents k v links).filter Event.isPrint
      = [Event.printPush (encode_hex k) (encode_hex v)] := by
  simp [pushEvents, Event.isPrint, filter_isPrint_store_map]

lemma filter_isPrint_wait_map (l : List Bytes) :
    (l.map (fun txn_hash => Event.waitReceipt txn_hash 2)).filter Event.isPrint = [] := by
  induction l with
  | nil => simp
  | cons t rest ih => simp [Event.isPrint, ih]

/-! ## Concrete environments for witnesses and counterexamples -/

/-- A concrete block: asserted hash `[7]`, number 5, receipts root `[9]`,
two transactions. -/
def bfHappy : BlockFields := ⟨[7], 5, [9], [[11], [12]]⟩

/-- An environment on which every validation check passes and no request
fails. -/
def envHappy : Env :=
  ⟨fun _ => [7], fun _ => 0, fun _ => [1], fun _ => [7],
   fun _ _ => [2], fun _ _ => 0, fun _ => [9], fun _ _ => [3],
   fun _ => [4], fun _ => bfHappy, fun _ _ => 0, fun _ => false⟩

/-- Like `envHappy`, but keccak disagrees with the asserted block hash. -/
def envHdrBad : Env :=
  ⟨fun _ => [8], fun _ => 0, fun _ => [1], fun _ => [7],
   fun _ _ => [2], fun _ _ => 0, fun _ => [9], fun _ _ => [3],
   fun _ => [4], fun _ => bfHappy, fun _ _ => 0, fun _ => false⟩

/-- Like `envHappy`, but the py-evm header's own hash disagrees with the
asserted block hash while keccak agrees. -/
def envPyBad : Env :=
  ⟨fun _ => [7], fun _ => 0, fun _ => [1], fun _ => [8],
   fun _ _ => [2], fun _ _ => 0, fun _ => [9], fun _ _ => [3],
   fun _ => [4], fun _ => bfHappy, fun _ _ => 0, fun _ => false⟩

/-- Like `envHappy`, but the recomputed receipts trie root disagrees with
the header's receipts root. -/
def envRootBad : Env :=
  ⟨fun _ => [7], fun _ => 0, fun _ => [1], fun _ => [7],
   fun _ _ => [2], fun _ _ => 0, fun _ => [10], fun _ _ => [3],
   fun _ => [4], fun _ => bfHappy, fun _ _ => 0, fun _ => false⟩

/-- Like `envHappy`, but the store request to node 0 fails at the
transport level. -/
def envFailNode : Env :=
  ⟨fun _ => [7], fun _ => 0, fun _ => [1], fun _ => [7],
   fun _ _ => [2], fun _ _ => 0, fun _ => [9], fun _ _ => [3],
   fun _ => [4], fun _ => bfHappy, fun _ _ => 0, fun n => n == 0⟩

/-- A distributor holding two node handles, 0 then 1. -/
def insTwo : PortalInserter := ⟨[0, 1]⟩

/-! ## Claims -/

/-- C1: a header content record is pushed to the distributor only if the
keccak hash of the rlp-encoded header equals the provider-asserted block
hash; when the recomputed hash differs, `block_fields_to_content` raises
`ValidationError` and no `push_history` call is made for that header: the
notification's trace is the block fetch alone, with no push events. -/
theorem header_push_gated_on_keccak (env : Env) (ins : PortalInserter)
    (cid : Nat) (hh : Bytes)
    (hne : env.keccak (headerRlpOf env (env.getBlock hh)) ≠ (env.getBlock hh).hash) :
    block_fields_to_content env (env.getBlock hh) cid
        = Except.error (Err.validationError headerEncodeErrMsg)
      ∧ propagate_header env ins cid hh
          = ([Event.getBlock hh], Except.error (Err.validationError headerEncodeErrMsg), ins)
      ∧ handle_new_header env ins hh cid
          = ([Event.getBlock hh], Except.error (Err.validationError headerEncodeErrMsg), ins) := by
  have hbc := block_fields_to_content_fail_keccak env (env.getBlock hh) cid hne
  have hph : propagate_header env ins cid hh
      = ([Event.getBlock hh], Except.error (Err.validationError headerEncodeErrMsg), ins) := by
    simp [propagate_header, hbc]
  exact ⟨hbc, hph, by simp [handle_new_header, hph]⟩

/-- Witness for C1: a concrete environment whose keccak recomputation
disagrees with the asserted block hash. -/
theorem header_push_gated_on_keccak_witness :
    envHdrBad.keccak (headerRlpOf envHdrBad (envHdrBad.getBlock [7]))
        ≠ (envHdrBad.getBlock [7]).hash
      ∧ (block_fields_to_content envHdrBad (envHdrBad.getBlock [7]) 1
            = Except.error (Err.validationError headerEncodeErrMsg)
          ∧ propagate_header envHdrBad insTwo 1 [7]
              = ([Event.getBlock [7]], Except.error (Err.validationError headerEncodeErrMsg), insTwo)
          ∧ handle_new_header envHdrBad insTwo [7] 1
              = ([Event.getBlock [7]], Except.error (Err.validationError headerEncodeErrMsg), insTwo)) :=
  ⟨by decide, header_push_gated_on_keccak envHdrBad insTwo 1 [7] (by decide)⟩

/-- C2: a receipts content record is pushed only if the recomputed trie
root of the encoded receipts equals the header's receiptsRoot; on mismatch
`encode_receipts_content` raises `ValidationError`, the notification's
trace holds the header push events and the receipt waits but no receipt
push events, and the header push has already occurred. -/
theorem receipts_push_gated_on_trie_root (env : Env) (ins : PortalInserter)
    (hh : Bytes) (cid : Nat)
    (h1 : headerChecksPass env (env.getBlock hh))
    (h3 : allRequestsOk env ins._web3_links)
    (h4 : ¬ receiptRootOk env (env.getBlock hh)) :
    encode_receipts_content env (web3ReceiptsOf env (env.getBlock hh)) cid
        (env.getBlock hh).hash (env.getBlock hh).number (env.getBlock hh).receiptsRoot
        = Except.error (Err.validationError receiptsEncodeErrMsg)
      ∧ handle_new_header env ins hh cid
          = (Event.getBlock hh
              :: (pushEvents (headerKeyOf env (env.getBlock hh) cid)
                    (headerRlpOf env (env.getBlock hh)) ins._web3_links
                ++ waitEventsOf (env.getBlock hh)),
             Except.error (Err.validationError receiptsEncodeErrMsg), ins) :=
  ⟨encode_receipts_content_fail env (env.getBlock hh) cid h4,
   handle_new_header_root_fail env ins hh cid h1 h3 h4⟩

/-- Witness for C2: a concrete environment whose recomputed receipts trie
root disagrees with the header's receipts root while the header checks
pass and no transport request fails. -/
theorem receipts_push_gated_on_trie_root_witness :
    (headerChecksPass envRootBad (envRootBad.getBlock [7])
      ∧ allRequestsOk envRootBad insTwo._web3_links
      ∧ ¬ receiptRootOk envRootBad (envRootBad.getBlock [7]))
      ∧ (encode_receipts_content envRootBad
            (web3ReceiptsOf envRootBad (envRootBad.getBlock [7])) 1
            (envRootBad.getBlock [7]).hash (envRootBad.getBlock [7]).number
            (envRootBad.getBlock [7]).receiptsRoot
            = Except.error (Err.validationError receiptsEncodeErrMsg)
          ∧ handle_new_header envRootBad insTwo [7] 1
              = (Event.getBlock [7]
                  :: (pushEvents (headerKeyOf envRootBad (envRootBad.getBlock [7]) 1)
                        (headerRlpOf envRootBad (envRootBad.getBlock [7])) insTwo._web3_links
                    ++ waitEventsOf (envRootBad.getBlock [7])),
                 Except.error (Err.validationError receiptsEncodeErrMsg), insTwo)) :=
  ⟨⟨by decide, by decide, by decide⟩,
   receipts_push_gated_on_trie_root envRootBad insTwo [7] 1 (by decide) (by decide) (by decide)⟩

/-- C3: per header notification the observable stages run strictly in
order — fetch header, push header (after pure encode and validation),
fetch receipts, push receipts (after pure encode and validation) — and a
header encoding/validation failure leaves the trace at the bare fetch, so
the receipts stage never starts; a transport failure during the header
push likewise stops the pipeline before the receipt waits. -/
theorem pipeline_stage_order (env : Env) (ins : PortalInserter) (hh : Bytes) (cid : Nat) :
    (handle_new_header env ins hh cid).1
      = Event.getBlock hh ::
          (if headerChecksPass env (env.getBlock hh) then
            (push_history env ins (headerKeyOf env (env.getBlock hh) cid)
                (headerRlpOf env (env.getBlock hh))).1
              ++ (if allRequestsOk env ins._web3_links then
                    waitEventsOf (env.getBlock hh)
                      ++ (if receiptRootOk env (env.getBlock hh) then
                            (push_history env ins (receiptKeyOf env (env.getBlock hh) cid)
                                (receiptValueOf env (env.getBlock hh))).1
                          else [])
                  else [])
          else []) := by
  by_cases h1 : headerChecksPass env (env.getBlock hh)
  · by_cases h3 : allRequestsOk env ins._web3_links
    · by_cases h4 : receiptRootOk env (env.getBlock hh)
      · have hall := handle_new_header_all_pass env ins hh cid h1 h3 h4
        have hpH := push_history_all_ok env ins (headerKeyOf env (env.getBlock hh) cid)
          (headerRlpOf env (env.getBlock hh)) h3
        have hpR := push_history_all_ok env ins (receiptKeyOf env (env.getBlock hh) cid)
          (receiptValueOf env (env.getBlock hh)) h3
        simp [hall, hpH, hpR, h1, h3, h4]
      · have hrf := handle_new_header_root_fail env ins hh cid h1 h3 h4
        have hpH := push_history_all_ok env ins (headerKeyOf env (env.getBlock hh) cid)
          (headerRlpOf env (env.getBlock hh)) h3
        simp [hrf, hpH, h1, h3, h4]
    · obtain ⟨n, hn⟩ := handle_new_header_transport env ins hh cid h1 h3
      simp [hn, h1, h3]
  · obtain ⟨s, hs⟩ := handle_new_header_fail env ins hh cid h1
    simp [hs, h1]

/-- C4 counterexample: with two established handles, node 0 then node 1,
and the store request to node 0 failing at the transport level, node 1
never receives the attempt and the failure propagates out of
`push_history` instead of being isolated. -/
theorem push_failure_not_isolated_counterexample :
    (push_history envFailNode insTwo [5] [6]).1
        = [Event.printPush (encode_hex [5]) (encode_hex [6]),
           Event.storeRequest 0 "portal_historyStore" [encode_hex [5], encode_hex [6]]]
      ∧ Event.storeRequest 1 "portal_historyStore" [encode_hex [5], encode_hex [6]]
          ∉ (push_history envFailNode insTwo [5] [6]).1
      ∧ (push_history envFailNode insTwo [5] [6]).2.1
          = Except.error (Err.transportError 0) :=
  ⟨rfl, by decide, rfl⟩

/-- C4 (amended): `push_history` attempts the store request on each held
handle in order only up to and including the first failing one — later
handles are not attempted — and the call returns normally iff no handle's
request fails; a transport failure propagates out of `push_history`. -/
theorem push_attempts_stop_at_first_failure (env : Env) (ins : PortalInserter)
    (k v : Bytes) :
    (push_history env ins k v).1
        = Event.printPush (encode_hex k) (encode_hex v)
            :: (attempted env ins._web3_links).map
                (fun n => storeEvent n (encode_hex k) (encode_hex v))
      ∧ ((push_history env ins k v).2.1 = Except.ok ()
          ↔ allRequestsOk env ins._web3_links) :=
  ⟨push_history_trace env ins k v, push_history_ok_iff env ins k v⟩

/-- C5: for a block whose header passes both hash checks and whose
receipts' trie root matches the header's receiptsRoot, with no transport
failure, `handle_new_header` performs exactly two `push_history` calls —
first the header content pair, then the receipts content pair — and
raises no error. -/
theorem happy_path_exactly_two_pushes (env : Env) (ins : PortalInserter)
    (hh : Bytes) (cid : Nat)
    (h1 : headerChecksPass env (env.getBlock hh))
    (h4 : receiptRootOk env (env.getBlock hh))
    (h3 : allRequestsOk env ins._web3_links) :
    handle_new_header env ins hh cid
        = (Event.getBlock hh
            :: (pushEvents (headerKeyOf env (env.getBlock hh) cid)
                  (headerRlpOf env (env.getBlock hh)) ins._web3_links
              ++ (waitEventsOf (env.getBlock hh)
                ++ pushEvents (receiptKeyOf env (env.getBlock hh) cid)
                    (receiptValueOf env (env.getBlock hh)) ins._web3_links)),
           Except.ok (), ins)
      ∧ (handle_new_header env ins hh cid).1.filter Event.isPrint
          = [Event.printPush (encode_hex (headerKeyOf env (env.getBlock hh) cid))
              (encode_hex (headerRlpOf env (env.getBlock hh))),
             Event.printPush (encode_hex (receiptKeyOf env (env.getBlock hh) cid))
              (encode_hex (receiptValueOf env (env.getBlock hh)))] := by
  have hall := handle_new_header_all_pass env ins hh cid h1 h3 h4
  refine ⟨hall, ?_⟩
  rw [hall]
  simp [Event.isPrint, filter_isPrint_pushEvents, filter_isPrint_wait_map, waitEventsOf]

/-- Witness for C5: the happy-path environment, a two-node distributor,
and a two-transaction block. -/
theorem happy_path_exactly_two_pushes_witness :
    (headerChecksPass envHappy (envHappy.getBlock [7])
      ∧ receiptRootOk envHappy (envHappy.getBlock [7])
      ∧ allRequestsOk envHappy insTwo._web3_links)
      ∧ (handle_new_header envHappy insTwo [7] 1
            = (Event.getBlock [7]
                :: (pushEvents (headerKeyOf envHappy (envHappy.getBlock [7]) 1)
                      (headerRlpOf envHappy (envHappy.getBlock [7])) insTwo._web3_links
                  ++ (waitEventsOf (envHappy.getBlock [7])
                    ++ pushEvents (receiptKeyOf envHappy (envHappy.getBlock [7]) 1)
                        (receiptValueOf envHappy (envHappy.getBlock [7])) insTwo._web3_links)),
               Except.ok (), insTwo)
          ∧ (handle_new_header envHappy insTwo [7] 1).1.filter Event.isPrint
              = [Event.printPush (encode_hex (headerKeyOf envHappy (envHappy.getBlock [7]) 1))
                  (encode_hex (headerRlpOf envHappy (envHappy.getBlock [7]))),
                 Event.printPush (encode_hex (receiptKeyOf envHappy (envHappy.getBlock [7]) 1))
                  (encode_hex (receiptValueOf envHappy (envHappy.getBlock [7])))]) :=
  ⟨⟨by decide, by decide, by decide⟩,
   happy_path_exactly_two_pushes envHappy insTwo [7] 1 (by decide) (by decide) (by decide)⟩

/-- C6: a `push_history` call with no transport failure sends the
(key, value) pair to every node handle held by the distributor, in the
order the handles appear in the collection established at construction,
and returns normally. -/
theorem push_fans_out_to_all_links_in_order (env : Env) (ins : PortalInserter)
    (k v : Bytes)
    (hok : allRequestsOk env ins._web3_links) :
    (push_history env ins k v).1
        = Event.printPush (encode_hex k) (encode_hex v)
            :: ins._web3_links.map (fun n => storeEvent n (encode_hex k) (encode_hex v))
      ∧ (push_history env ins k v).2.1 = Except.ok () := by
  have h := push_history_all_ok env ins k v hok
  constructor
  · rw [h]
    simp [pushEvents]
  · rw [h]

/-- Witness for C6: the happy-path environment and a two-node
distributor. -/
theorem push_fans_out_to_all_links_in_order_witness :
    allRequestsOk envHappy insTwo._web3_links
      ∧ ((push_history envHappy insTwo [5] [6]).1
            = Event.printPush (encode_hex [5]) (encode_hex [6])
                :: insTwo._web3_links.map
                    (fun n => storeEvent n (encode_hex [5]) (encode_hex [6]))
          ∧ (push_history envHappy insTwo [5] [6]).2.1 = Except.ok ()) :=
  ⟨by decide, push_fans_out_to_all_links_in_order envHappy insTwo [5] [6] (by decide)⟩

/-- C7: `propagate_receipts` issues one blocking wait-for-receipt request
per transaction hash in the block's transaction list, in the list's
order, with the fixed poll interval 2, before any receipts push event;
every event after the waits belongs to a `push_history` call. -/
theorem receipt_waits_precede_receipt_pushes (env : Env) (ins : PortalInserter)
    (cid : Nat) (bf : BlockFields) :
    ∃ rest, (propagate_receipts env ins cid bf).1 = waitEventsOf bf ++ rest
      ∧ ∀ e ∈ rest, e.isPush = true := by
  by_cases h : receiptRootOk env bf
  · have hp := propagate_receipts_pass env ins cid bf h
    refine ⟨(push_history env ins (receiptKeyOf env bf cid) (receiptValueOf env bf)).1, ?_, ?_⟩
    · rw [hp]
    · intro e he
      rw [push_history_trace] at he
      rcases List.mem_cons.mp he with hhd | htl
      · simp [hhd, Event.isPush]
      · rcases List.mem_map.mp htl with ⟨a, _, hae⟩
        rw [← hae]
        simp [storeEvent, Event.isPush]
  · have hp := propagate_receipts_fail env ins cid bf h
    exact ⟨[], by simp [hp], by simp⟩

/-- C8: every store request issued by `push_history` uses the
`portal_historyStore` method and carries the content key and value as the
hex-encoded byte-string pair; in particular the same pair goes to every
node reached in a single call. -/
theorem store_requests_carry_hex_pair (env : Env) (ins : PortalInserter)
    (k v : Bytes) (n : Node) (m : String) (ps : List String)
    (hmem : Event.storeRequest n m ps ∈ (push_history env ins k v).1) :
    m = "portal_historyStore" ∧ ps = [encode_hex k, encode_hex v] := by
  rw [push_history_trace] at hmem
  rcases List.mem_cons.mp hmem with hhd | htl
  · exact absurd hhd (by simp)
  · rcases List.mem_map.mp htl with ⟨a, _, hae⟩
    have hae2 : Event.storeRequest a "portal_historyStore" [encode_hex k, encode_hex v]
        = Event.storeRequest n m ps := hae
    injection hae2 with e1 e2 e3
    exact ⟨e2.symm, e3.symm⟩

/-- Witness for C8: a store request to node 0 in the happy-path trace. -/
theorem store_requests_carry_hex_pair_witness :
    Event.storeRequest 0 "portal_historyStore" [encode_hex [5], encode_hex [6]]
        ∈ (push_history envHappy insTwo [5] [6]).1
      ∧ ("portal_historyStore" = "portal_historyStore"
          ∧ [encode_hex [5], encode_hex [6]] = [encode_hex [5], encode_hex [6]]) :=
  ⟨by decide,
   store_requests_carry_hex_pair envHappy insTwo [5] [6] 0 "portal_historyStore"
     [encode_hex [5], encode_hex [6]] (by decide)⟩

/-- C9: `push_history` never mutates the distributor's state — after any
call the inserter is unchanged and its `_web3_links` collection holds the
same handles in the same order as before. -/
theorem push_history_preserves_links (env : Env) (ins : PortalInserter)
    (k v : Bytes) :
    (push_history env ins k v).2.2 = ins
      ∧ (push_history env ins k v).2.2._web3_links = ins._web3_links :=
  ⟨rfl, rfl⟩

/-- C10: even when the keccak of the rlp-encoded header equals the
asserted hash, `block_fields_to_content` returns a content pair only when
the py-evm header's own hash also equals the asserted hash, and raises
`ValidationError` otherwise. -/
theorem pyevm_hash_check_additional (env : Env) (bf : BlockFields) (cid : Nat)
    (hk : env.keccak (headerRlpOf env bf) = bf.hash) :
    block_fields_to_content env bf cid
      = if env.pyEvmHash (headerOf env bf) = bf.hash
        then Except.ok (headerKeyOf env bf cid, headerRlpOf env bf)
        else Except.error (Err.validationError pyEvmHashErrMsg) := by
  by_cases hp : env.pyEvmHash (headerOf env bf) = bf.hash
  · rw [if_pos hp]
    exact block_fields_to_content_pass env bf cid ⟨hk, hp⟩
  · rw [if_neg hp]
    have hk2 : env.keccak (env.rlpEncode (env.blockFieldsToHeader bf)) = bf.hash := hk
    have hp2 : env.pyEvmHash (env.blockFieldsToHeader bf) ≠ bf.hash := hp
    simp [block_fields_to_content, hk2, hp2]

/-- Witness for C10: an environment where keccak agrees with the asserted
hash but the py-evm header's own hash does not. -/
theorem pyevm_hash_check_additional_witness :
    envPyBad.keccak (headerRlpOf envPyBad bfHappy) = bfHappy.hash
      ∧ block_fields_to_content envPyBad bfHappy 1
          = (if envPyBad.pyEvmHash (headerOf envPyBad bfHappy) = bfHappy.hash
             then Except.ok (headerKeyOf envPyBad bfHappy 1, headerRlpOf envPyBad bfHappy)
             else Except.error (Err.validationError pyEvmHashErrMsg)) :=
  ⟨by decide, pyevm_hash_check_additional envPyBad bfHappy 1 (by decide)⟩
